import Mathlib

/- Shallow embedding of the ShopSavvy deal-discovery bot:
   src/config.py   (configuration, conversation states, startup validation),
   src/main.py     (webhook gateway and conversation-handler registration),
   src/web_server.py (Flask status dashboard: /api/status, /api/stats/*, /health).
   The conversation-handler bodies (start, button_callback, handle_product_search,
   cancel_conversation, handle_invalid_input, error_handler) live in bot_handlers.py,
   which is not among the sources; definitions standing in for them are modelled from
   the specification and carry a doc comment saying so. -/

/- Conversation states, from config.py class States: the eight integers range(8). -/

def START : Nat := 0

def PLATFORM_SELECTION : Nat := 1

def PRODUCT_SEARCH : Nat := 2

def CATEGORY_SELECTION : Nat := 3

def DEAL_TYPE_SELECTION : Nat := 4

def PRICE_ALERT_SETUP : Nat := 5

def FEEDBACK : Nat := 6

def ADMIN_PANEL : Nat := 7

/-- Event kinds of the normalized internal event (spec section 3). -/
inductive EventKind where
  | command
  | text
  | callback
deriving DecidableEq

/-- Normalized internal event (spec section 3): user identity, kind, payload, receipt time. -/
structure Event where
  user_id : String
  kind : EventKind
  payload : String
  received_at : Nat
deriving DecidableEq

/-- Per-user conversation session (spec section 3). -/
structure Session where
  user_id : String
  state : Nat
  selected_platform : Option String
  selected_category : Option String
  search_query : Option String
  created_at : Nat
  last_active_at : Nat
deriving DecidableEq

/-- Responses the Orchestrator emits, one per transition-table row (spec section 4.3). -/
inductive Emit where
  | welcomeMenu
  | platformList
  | categoryList
  | enterQuery
  | dealTypeList
  | resultPlaceholder
  | cancelNotice
  | invalidInput
deriving DecidableEq

/-- Modelled from the spec: the Conversation Orchestrator's transition function.
The handler bodies live in bot_handlers.py, which is not among the sources;
src/main.py lines 83-104 only registers them.  The transitions follow the spec
section 4.3 table and tie-break rule: the cancel/start reset patterns are checked
first, then the state-scoped patterns, then the invalid-input catch-all that leaves
the state unchanged; last_active_at is refreshed on every event (spec section 3). -/
def stepSessionE (s : Session) (e : Event) : Session × Emit :=
  match e.kind with
  | .command =>
    if e.payload = "cancel" then
      ({ s with state := START, selected_platform := none, selected_category := none,
                search_query := none, last_active_at := e.received_at }, .cancelNotice)
    else if e.payload = "start" then
      ({ s with state := START, last_active_at := e.received_at }, .welcomeMenu)
    else
      ({ s with last_active_at := e.received_at }, .invalidInput)
  | .callback =>
    if s.state = START ∧ e.payload = "search_products" then
      ({ s with state := PLATFORM_SELECTION, last_active_at := e.received_at }, .platformList)
    else if s.state = START ∧ e.payload = "browse_categories" then
      ({ s with state := CATEGORY_SELECTION, last_active_at := e.received_at }, .categoryList)
    else if s.state = PLATFORM_SELECTION ∧ e.payload.take 9 = "platform_" then
      ({ s with state := PRODUCT_SEARCH, selected_platform := some (e.payload.drop 9),
                last_active_at := e.received_at }, .enterQuery)
    else if s.state = CATEGORY_SELECTION ∧ e.payload.take 9 = "category_" then
      ({ s with state := DEAL_TYPE_SELECTION, selected_category := some (e.payload.drop 9),
                last_active_at := e.received_at }, .dealTypeList)
    else
      ({ s with last_active_at := e.received_at }, .invalidInput)
  | .text =>
    if s.state = PRODUCT_SEARCH then
      ({ s with state := START, search_query := some e.payload,
                last_active_at := e.received_at }, .resultPlaceholder)
    else
      ({ s with last_active_at := e.received_at }, .invalidInput)

/-- The session part of a transition. -/
def stepSession (s : Session) (e : Event) : Session :=
  (stepSessionE s e).1

/-- A fresh session starts in START with no selections (spec sections 3 and 4.1). -/
def freshSession (uid : String) (now : Nat) : Session :=
  { user_id := uid, state := START, selected_platform := none, selected_category := none,
    search_query := none, created_at := now, last_active_at := now }

/-- Replay of an event sequence through the Orchestrator. -/
def runEvents (s : Session) (es : List Event) : Session :=
  es.foldl stepSession s

/-- The conversation-visible part of a session: state and accumulated selections
(excluding identity and timestamps). -/
def sessionCore (s : Session) : Nat × Option String × Option String × Option String :=
  (s.state, s.selected_platform, s.selected_category, s.search_query)

/-- The part of an event the transition table consults: kind and payload. -/
def evData (e : Event) : EventKind × String :=
  (e.kind, e.payload)

/- Session Store (spec section 4.1): in-memory mapping from user identity to session. -/

abbrev Sessions := List (String × Session)

def findSession : Sessions → String → Option Session
  | [], _ => none
  | (k, v) :: rest, uid => if k = uid then some v else findSession rest uid

/-- Modelled from the spec: Session Store get_or_create (spec section 4.1) — creates with
state=START if absent, refreshes last_active_at; bot_handlers.py, where per-user
conversation bookkeeping lives, is not among the sources. -/
def get_or_create (ss : Sessions) (uid : String) (now : Nat) : Session :=
  match findSession ss uid with
  | some s => { s with last_active_at := now }
  | none => freshSession uid now

/-- Modelled from the spec: Session Store save, an idempotent overwrite keyed by user
(spec section 4.1). -/
def saveSession : Sessions → Session → Sessions
  | [], s => [(s.user_id, s)]
  | (k, v) :: rest, s => if k = s.user_id then (k, s) :: rest else (k, v) :: saveSession rest s

/-- Process-wide counters (spec section 3): mutated by the Orchestrator, read by the
Status Reporter. -/
structure Counters where
  total_searches : Nat
  distinct_users : List String
  last_activity : Option Nat
deriving DecidableEq

/-- Insertion into a set modelled as a duplicate-free list (Python set.add). -/
def insertUser (uid : String) (l : List String) : List String :=
  if uid ∈ l then l else uid :: l

/-- The state the push pipeline mutates: the session store plus the counters. -/
structure ProcState where
  sessions : Sessions
  counters : Counters
deriving DecidableEq

/-- Raw inbound payload as it reaches the gateway: the user identity and the kind may
be missing (spec section 4.2). -/
structure RawPayload where
  user_id : Option String
  kind : Option EventKind
  payload : String
  received_at : Nat
deriving DecidableEq

/-- Modelled from the spec: the Event Normalizer (spec section 4.2) — Update.de_json and
the handler-side extraction live outside the sources.  It fails exactly when the raw
payload lacks a user identity or a recognizable kind. -/
def normalizeEvent (raw : RawPayload) : Option Event :=
  match raw.user_id, raw.kind with
  | some uid, some k =>
      some { user_id := uid, kind := k, payload := raw.payload, received_at := raw.received_at }
  | _, _ => none

/-- Error taxonomy of normal event processing (spec section 7). -/
inductive ProcError where
  | MalformedPayload
  | UnknownTransition
deriving DecidableEq

/-- Modelled from the spec: downstream processing of one raw payload (Normalizer then
Orchestrator; app.process_update routes into bot_handlers.py, which is not among the
sources).  A malformed payload is dropped; a recognized event updates the session store
and the counters (total_searches on the search transition, distinct_users on every seen
user, last_activity on every event); an unmatched event is reported as UnknownTransition
but still only refreshes activity.  No branch escapes: errors are returned, never thrown. -/
def processUpdateE (st : ProcState) (raw : RawPayload) : ProcState × Option ProcError :=
  match normalizeEvent raw with
  | none => (st, some .MalformedPayload)
  | some e =>
    let s := get_or_create st.sessions e.user_id e.received_at
    let r := stepSessionE s e
    ({ sessions := saveSession st.sessions r.1,
       counters :=
         { total_searches :=
             st.counters.total_searches + (if r.2 = .resultPlaceholder then 1 else 0),
           distinct_users := insertUser e.user_id st.counters.distinct_users,
           last_activity := some e.received_at } },
     if r.2 = .invalidInput then some .UnknownTransition else none)

/-- Downstream processing, errors logged and dropped. -/
def processUpdate (st : ProcState) (raw : RawPayload) : ProcState :=
  (processUpdateE st raw).1

/-- The observable actions of the webhook handler, in execution order. -/
inductive GatewayAction where
  | parse
  | handoff
  | process
  | respond (code : Nat)
deriving DecidableEq

/-- A request to the push endpoint: body (none models an unparseable JSON body) and the
optional shared-secret header. -/
structure WebhookRequest where
  body : Option RawPayload
  secret_header : Option String
deriving DecidableEq

/-- Result of one push-endpoint request: the ordered actions the handler performed, the
HTTP status code, and the resulting process state. -/
structure WebhookResult where
  actions : List GatewayAction
  code : Nat
  procState : ProcState
deriving DecidableEq

/-- The push endpoint, from src/main.py lines 61-67: `await request.json()` (an invalid
body raises and the framework answers 500 without reaching the handler body's rest),
then `Update.de_json` (the handoff to the Normalizer), then `await app.process_update`
(full downstream processing; handler exceptions are routed to the registered error
handler, so it returns normally), and only then `Response(status_code=200)`.  The
handler never consults any secret header. -/
def telegram_webhook (req : WebhookRequest) (st : ProcState) : WebhookResult :=
  match req.body with
  | none => { actions := [.parse], code := 500, procState := st }
  | some raw =>
    { actions := [.parse, .handoff, .process, .respond 200], code := 200,
      procState := processUpdate st raw }

/-- Whether action b occurs immediately after action a somewhere in the list. -/
def immediatelyAfter (a b : GatewayAction) : List GatewayAction → Bool
  | x :: y :: rest => (if x = a ∧ y = b then true else immediatelyAfter a b (y :: rest))
  | _ => false

def initCounters : Counters :=
  { total_searches := 0, distinct_users := [], last_activity := none }

def initProc : ProcState :=
  { sessions := [], counters := initCounters }

/- Configuration, from src/config.py. -/

/-- The configuration inputs validate_config consults: BotConfig.TOKEN and
WebhookConfig.URL (src/config.py). -/
structure Config where
  token : String
  webhook_url : String
deriving DecidableEq

/-- WebhookConfig (src/config.py lines 35-39): optional base URL and optional shared
secret read from WEBHOOK_SECRET.  No code in the sources ever reads SECRET. -/
structure WebhookConfig where
  URL : String
  SECRET : Option String
deriving DecidableEq

inductive ConfigError where
  | missingToken
  | invalidWebhookUrl
deriving DecidableEq

/-- validate_config from src/config.py lines 127-139: raises on an empty token, then on
a webhook URL that is set but does not start with http:// or https://.  It runs at
module import, before any serving starts. -/
def validate_config (c : Config) : Except ConfigError Unit :=
  if c.token = "" then .error .missingToken
  else if c.webhook_url ≠ "" ∧
      ¬(c.webhook_url.take 7 = "http://" ∨ c.webhook_url.take 8 = "https://") then
    .error .invalidWebhookUrl
  else .ok ()

/-- Outcome of process startup. -/
inductive StartupOutcome where
  | haltedAtValidation (e : ConfigError)
  | exitedBeforeServing
  | serving
deriving DecidableEq

/-- Startup: config.py's import-time validate_config halts the process on a bad
configuration; main.py lines 71-77 additionally returns before serving when the token
still equals the placeholder string. -/
def startup (c : Config) : StartupOutcome :=
  match validate_config c with
  | .error e => .haltedAtValidation e
  | .ok _ => if c.token = "TELEGRAM_BOT_TOKEN" then .exitedBeforeServing else .serving

/-- A serving process: its mutable state plus whether it is still serving. -/
structure ServerState where
  proc : ProcState
  serving : Bool
deriving DecidableEq

/-- Modelled from the spec: one iteration of the serving loop.  Errors of normal event
processing (the error_handler registered in src/main.py lives in bot_handlers.py, which
is not among the sources) are logged and dropped — in both branches the process keeps
serving (spec section 7). -/
def serverHandle (s : ServerState) (raw : RawPayload) : ServerState :=
  match processUpdateE s.proc raw with
  | (st, some _e) => { proc := st, serving := s.serving }
  | (st, none) => { proc := st, serving := s.serving }

/- The web dashboard, from src/web_server.py. -/

/-- A JSON value, as produced by Flask's jsonify. -/
inductive JVal where
  | s (v : String)
  | n (v : Int)
  | b (v : Bool)
  | null
  | obj (fields : List (String × JVal))

/-- Lookup of a key in a JSON object's field list. -/
def jlookup (k : String) : List (String × JVal) → Option JVal
  | [] => none
  | (k', v) :: rest => if k' = k then some v else jlookup k rest

/-- The bot_stats dictionary of src/web_server.py: start_time, total_searches,
active_users (a set, modelled as a duplicate-free list), images_sent, last_activity. -/
structure BotStats where
  start_time : Nat
  total_searches : Nat
  active_users : List String
  images_sent : Nat
  last_activity : Option String
deriving DecidableEq

/-- bot_stats at module load (src/web_server.py lines 22-29). -/
def initStats (t0 : Nat) : BotStats :=
  { start_time := t0, total_searches := 0, active_users := [], images_sent := 0,
    last_activity := none }

/-- Python's bot_stats.get(k, 0) restricted to the numeric entries of the dictionary.
Every key increment_stat ever asks for has the shape "total_" ++ t ++ "s", and the only
key of bot_stats starting with "total_" is "total_searches", so this embedding is exact
on every reachable key (the set-valued and string-valued entries are never reached). -/
def bot_stats_get_num (st : BotStats) (k : String) : Int :=
  if k = "start_time" then st.start_time
  else if k = "total_searches" then st.total_searches
  else if k = "images_sent" then st.images_sent
  else 0

/-- The uptime string f-formatted in get_status (src/web_server.py lines 40-44). -/
def uptimeStr (uptime_seconds : Nat) : String :=
  toString (uptime_seconds / 3600) ++ "h " ++ toString (uptime_seconds % 3600 / 60) ++ "m "
    ++ toString (uptime_seconds % 60) ++ "s"

/-- GET /api/status (src/web_server.py lines 36-72), success path: the psutil readings
and the clock are parameters.  Returns the HTTP code and the JSON object's fields in
source order. -/
def get_status (st : BotStats) (now : Nat) (nowIso : String) (cpu : Int)
    (memPercent : Int) (memAvailMB : Nat) : Nat × List (String × JVal) :=
  (200,
   [("bot_status", .s "online"),
    ("uptime", .s (uptimeStr (now - st.start_time))),
    ("last_update", .s nowIso),
    ("total_searches", .n st.total_searches),
    ("active_users", .n st.active_users.length),
    ("images_sent", .n st.images_sent),
    ("last_activity", match st.last_activity with | some a => .s a | none => .null),
    ("system", .obj [("cpu_percent", .n cpu), ("memory_percent", .n memPercent),
                     ("memory_available", .s (toString memAvailMB ++ " MB"))]),
    ("services", .obj [("omdb_api", .s "connected"), ("telegram_api", .s "connected"),
                       ("database", .s "available"), ("image_upload", .s "working")])])

/-- GET /api/stats/increment/[stat_type] (src/web_server.py lines 81-96): increments
total_searches for "search" and images_sent for "image", refreshes last_activity for
every stat_type, and reports as 'value' bot_stats.get("total_" ++ stat_type ++ "s", 0)
evaluated on the updated dictionary. -/
def increment_stat (stat_type : String) (st : BotStats) (nowIso : String) :
    BotStats × Nat × List (String × JVal) :=
  let st1 :=
    if stat_type = "search" then { st with total_searches := st.total_searches + 1 }
    else if stat_type = "image" then { st with images_sent := st.images_sent + 1 }
    else st
  let st2 := { st1 with last_activity := some nowIso }
  (st2, 200,
   [("status", .s "success"),
    ("value", .n (bot_stats_get_num st2 ("total_" ++ stat_type ++ "s")))])

/-- GET /api/stats/user/[user_id] (src/web_server.py lines 98-112): adds the user to the
active_users set, refreshes last_activity, and reports the set's size. -/
def track_user (user_id : String) (st : BotStats) (nowIso : String) :
    BotStats × Nat × List (String × JVal) :=
  let st1 := { st with active_users := insertUser user_id st.active_users,
                       last_activity := some nowIso }
  (st1, 200,
   [("status", .s "success"), ("active_users", .n st1.active_users.length)])

/-- GET /health (src/web_server.py lines 114-121): always 200 with status "healthy",
an ISO timestamp, and the uptime in seconds. -/
def health_check (st : BotStats) (now : Nat) (nowIso : String) :
    Nat × List (String × JVal) :=
  (200,
   [("status", .s "healthy"), ("timestamp", .s nowIso),
    ("uptime", .n (((now - st.start_time : Nat) : Int)))])

/-- GET /status of the bot's own web app (src/main.py lines 52-59): a fixed three-field
object. -/
def status_route (botUsername : String) (webhook_set : Bool) : List (String × JVal) :=
  [("status", .s "running"), ("bot", .s botUsername), ("webhook_set", .b webhook_set)]

/-- Repeated track_user calls folded over the dashboard statistics. -/
def trackFold (st : BotStats) (calls : List (String × String)) : BotStats :=
  calls.foldl (fun s c => (track_user c.1 s c.2).1) st

/-- A sample raw payload carrying a user identity. -/
def samplePayload : RawPayload :=
  { user_id := some "u7", kind := some .text, payload := "hi", received_at := 3 }

/-- A sample raw payload lacking a user identity. -/
def sampleNoUser : RawPayload :=
  { user_id := none, kind := some .text, payload := "hello", received_at := 5 }

/- Helper lemmas. -/

theorem insertUser_idem (u : String) (l : List String) :
    insertUser u (insertUser u l) = insertUser u l := by
  by_cases h : u ∈ l <;> simp [insertUser, h]

theorem length_le_insertUser (u : String) (l : List String) :
    l.length ≤ (insertUser u l).length := by
  by_cases h : u ∈ l <;> simp [insertUser, h]

theorem trackFold_mono : ∀ (calls : List (String × String)) (st : BotStats),
    st.active_users.length ≤ (trackFold st calls).active_users.length
  | [], _ => le_refl _
  | c :: rest, st => by
      have h1 : st.active_users.length ≤ (track_user c.1 st c.2).1.active_users.length :=
        length_le_insertUser c.1 st.active_users
      exact le_trans h1 (trackFold_mono rest _)

/-- C4: processing a cancel command from any session in any conversation state resets the
session to START, clears selected_platform, selected_category and search_query, and emits
the cancellation notice.  The reset pattern is matched before any state-scoped pattern,
so the equation holds uniformly in the state, including every non-START state. -/
theorem cancel_reset_confirmed (s : Session) (uid : String) (t : Nat) :
    stepSessionE s { user_id := uid, kind := .command, payload := "cancel", received_at := t }
      = ({ s with state := START, selected_platform := none, selected_category := none,
                  search_query := none, last_active_at := t }, .cancelNotice) := by
  rfl

/-- C8: for every dashboard state and clock reading, GET /health answers 200 with a JSON
body whose status field is "healthy" and which carries a timestamp. -/
theorem health_check_confirmed (st : BotStats) (now : Nat) (nowIso : String) :
    (health_check st now nowIso).1 = 200 ∧
    jlookup "status" (health_check st now nowIso).2 = some (.s "healthy") ∧
    jlookup "timestamp" (health_check st now nowIso).2 = some (.s nowIso) := by
  exact ⟨rfl, rfl, rfl⟩

/-- C3, counterexample: the GET /status endpoint's JSON object has keys status, bot and
webhook_set — not the claimed five keys; in particular "uptime" is not among its keys. -/
theorem status_keys_cex :
    (status_route "ShopSavvyBot" true).map Prod.fst = ["status", "bot", "webhook_set"] ∧
    "uptime" ∉ (status_route "ShopSavvyBot" true).map Prod.fst ∧
    (status_route "ShopSavvyBot" true).map Prod.fst ≠
      ["status", "uptime", "total_searches", "distinct_users", "last_activity"] := by
  exact ⟨rfl, by decide, by decide⟩

/-- C3 (amended): GET /status returns the keys status, bot, webhook_set; the process-wide
counters are exposed by the dashboard's GET /api/status instead, whose keys are
bot_status, uptime, last_update, total_searches, active_users, images_sent,
last_activity, system, services, with total_searches and active_users taken from the
process-wide bot statistics. -/
theorem status_keys_amended (u : String) (w : Bool) (st : BotStats) (now : Nat)
    (nowIso : String) (cpu memPercent : Int) (memAvailMB : Nat) :
    (status_route u w).map Prod.fst = ["status", "bot", "webhook_set"] ∧
    ((get_status st now nowIso cpu memPercent memAvailMB).2.map Prod.fst =
      ["bot_status", "uptime", "last_update", "total_searches", "active_users",
       "images_sent", "last_activity", "system", "services"]) ∧
    jlookup "total_searches" (get_status st now nowIso cpu memPercent memAvailMB).2 =
      some (.n st.total_searches) ∧
    jlookup "active_users" (get_status st now nowIso cpu memPercent memAvailMB).2 =
      some (.n st.active_users.length) := by
  exact ⟨rfl, rfl, rfl, rfl⟩

/-- C10: the dashboard's user-tracking endpoint is idempotent in the tracked set —
tracking the same user twice yields the same active_users count as tracking once — and
along any sequence of track_user calls the active_users count never decreases. -/
theorem track_user_confirmed :
    (∀ (uid : String) (st : BotStats) (n₁ n₂ : String),
      (track_user uid (track_user uid st n₁).1 n₂).1.active_users.length =
        (track_user uid st n₁).1.active_users.length) ∧
    (∀ (st : BotStats) (calls : List (String × String)),
      st.active_users.length ≤ (trackFold st calls).active_users.length) := by
  constructor
  · intro uid st n₁ n₂
    show (insertUser uid (insertUser uid st.active_users)).length
        = (insertUser uid st.active_users).length
    rw [insertUser_idem]
  · intro st calls
    exact trackFold_mono calls st

/-- C2, counterexample: with a configured shared secret (WebhookConfig.SECRET set to
"hunter2") and a request whose secret header "wrong" does not match it, the push handler
still hands the payload to the normalizer, changes the distinct_users counter, and
answers 200 rather than 401 — src/main.py's telegram_webhook never consults the secret. -/
theorem webhook_secret_cex :
    ({ URL := "", SECRET := some "hunter2" } : WebhookConfig).SECRET ≠ some "wrong" ∧
    (telegram_webhook { body := some samplePayload, secret_header := some "wrong" }
        initProc).code = 200 ∧
    (telegram_webhook { body := some samplePayload, secret_header := some "wrong" }
        initProc).code ≠ 401 ∧
    GatewayAction.handoff ∈
      (telegram_webhook { body := some samplePayload, secret_header := some "wrong" }
        initProc).actions ∧
    (telegram_webhook { body := some samplePayload, secret_header := some "wrong" }
        initProc).procState.counters.distinct_users ≠ initProc.counters.distinct_users := by
  refine ⟨by decide, rfl, by decide, by decide, by decide⟩

/-- C2 (amended): the push endpoint performs no shared-secret verification — the
handler's result is independent of the request's secret header, every parsed request is
handed to the normalizer, and the response status is 200; no 401 path exists. -/
theorem webhook_secret_amended (st : ProcState) (raw : RawPayload) (h₁ h₂ : Option String) :
    telegram_webhook { body := some raw, secret_header := h₁ } st =
      telegram_webhook { body := some raw, secret_header := h₂ } st ∧
    (telegram_webhook { body := some raw, secret_header := h₁ } st).code = 200 ∧
    GatewayAction.handoff ∈
      (telegram_webhook { body := some raw, secret_header := h₁ } st).actions := by
  refine ⟨rfl, rfl, by simp [telegram_webhook]⟩

/-- C1, counterexample: at this concrete payload (valid JSON, no user identity) the
handler's action sequence is parse, handoff, full processing, 200-response — the
acknowledgement is not issued as soon as the payload is handed to the normalizer; full
downstream processing stands between the handoff and the 200 response. -/
theorem webhook_ack_cex :
    (telegram_webhook { body := some sampleNoUser, secret_header := none } initProc).actions
      = [.parse, .handoff, .process, .respond 200] ∧
    immediatelyAfter .handoff (.respond 200)
      (telegram_webhook { body := some sampleNoUser, secret_header := none }
        initProc).actions = false := by
  exact ⟨rfl, rfl⟩

/-- C1 (amended): for every request whose body parses, the push endpoint answers 200,
but the acknowledgement is emitted only after process_update completes — after full
processing, not at the handoff — and the status is 200 regardless of the downstream
outcome; a payload lacking a user identity still gets 200, creates no session, and
leaves distinct_users (and every other counter) unchanged. -/
theorem webhook_ack_amended (st : ProcState) (raw : RawPayload) (hdr : Option String) :
    (telegram_webhook { body := some raw, secret_header := hdr } st).code = 200 ∧
    (telegram_webhook { body := some raw, secret_header := hdr } st).actions
      = [.parse, .handoff, .process, .respond 200] ∧
    (raw.user_id = none →
      (telegram_webhook { body := some raw, secret_header := hdr } st).procState = st) := by
  refine ⟨rfl, rfl, fun h => ?_⟩
  have hne : normalizeEvent raw = none := by
    cases hk : raw.kind <;> simp [normalizeEvent, h, hk]
  show processUpdate st raw = st
  simp [processUpdate, processUpdateE, hne]

/-- C1 witness: the amended statement at the concrete no-identity payload. -/
theorem webhook_ack_amended_witness :
    (telegram_webhook { body := some sampleNoUser, secret_header := none } initProc).code
      = 200 ∧
    (telegram_webhook { body := some sampleNoUser, secret_header := none }
        initProc).procState = initProc := by
  exact ⟨(webhook_ack_amended initProc sampleNoUser none).1,
         (webhook_ack_amended initProc sampleNoUser none).2.2 rfl⟩

theorem stepCore_congr (s₁ s₂ : Session) (e₁ e₂ : Event)
    (hs : sessionCore s₁ = sessionCore s₂) (he : evData e₁ = evData e₂) :
    sessionCore (stepSession s₁ e₁) = sessionCore (stepSession s₂ e₂) := by
  obtain ⟨u₁, st₁, p₁, c₁, q₁, ca₁, la₁⟩ := s₁
  obtain ⟨u₂, st₂, p₂, c₂, q₂, ca₂, la₂⟩ := s₂
  obtain ⟨v₁, k₁, pl₁, r₁⟩ := e₁
  obtain ⟨v₂, k₂, pl₂, r₂⟩ := e₂
  simp only [sessionCore, evData, Prod.mk.injEq] at hs he
  obtain ⟨h1, h2, h3, h4⟩ := hs
  obtain ⟨hk, hp⟩ := he
  subst h1; subst h2; subst h3; subst h4; subst hk; subst hp
  cases k₁ <;> simp only [stepSession, stepSessionE] <;> split_ifs <;> rfl

theorem runCore_congr : ∀ (es₁ es₂ : List Event) (s₁ s₂ : Session),
    es₁.map evData = es₂.map evData → sessionCore s₁ = sessionCore s₂ →
    sessionCore (runEvents s₁ es₁) = sessionCore (runEvents s₂ es₂)
  | [], [], _, _, _, hs => hs
  | e₁ :: t₁, e₂ :: t₂, s₁, s₂, hmap, hs => by
      simp only [List.map_cons, List.cons.injEq] at hmap
      exact runCore_congr t₁ t₂ (stepSession s₁ e₁) (stepSession s₂ e₂) hmap.2
        (stepCore_congr s₁ s₂ e₁ e₂ hs hmap.1)
  | [], _ :: _, _, _, hmap, _ => by simp at hmap
  | _ :: _, [], _, _, hmap, _ => by simp at hmap

/-- C5: the resulting conversation state is a pure function of the event sequence and
the transition table — replaying the same sequence of event kinds and payloads twice,
each time from a fresh session (created and received at possibly different instants),
yields identical final state and selections. -/
theorem replay_determinism_confirmed (uid : String) (t₁ t₂ : Nat) (es₁ es₂ : List Event)
    (h : es₁.map evData = es₂.map evData) :
    sessionCore (runEvents (freshSession uid t₁) es₁)
      = sessionCore (runEvents (freshSession uid t₂) es₂) :=
  runCore_congr es₁ es₂ _ _ h rfl

/-- C5 witness: the same two-event sequence replayed with different creation and receipt
times from fresh sessions ends in the same state and selections. -/
theorem replay_determinism_witness :
    sessionCore (runEvents (freshSession "u" 0)
        [{ user_id := "u", kind := .callback, payload := "search_products", received_at := 1 },
         { user_id := "u", kind := .callback, payload := "platform_flipkart", received_at := 2 }])
      = sessionCore (runEvents (freshSession "u" 9)
        [{ user_id := "u", kind := .callback, payload := "search_products", received_at := 7 },
         { user_id := "u", kind := .callback, payload := "platform_flipkart", received_at := 8 }]) :=
  replay_determinism_confirmed "u" 0 9 _ _ rfl

theorem stepState_lt (s : Session) (e : Event) (h : s.state < 8) :
    (stepSession s e).state < 8 := by
  obtain ⟨v, k, pl, r⟩ := e
  cases k <;> simp only [stepSession, stepSessionE] <;> split_ifs <;>
    simp_all [START, PLATFORM_SELECTION, PRODUCT_SEARCH, CATEGORY_SELECTION,
      DEAL_TYPE_SELECTION]

theorem runState_lt : ∀ (es : List Event) (s : Session), s.state < 8 →
    (runEvents s es).state < 8
  | [], _, h => h
  | e :: t, s, h => runState_lt t (stepSession s e) (stepState_lt s e h)

theorem stepState_dep (s₁ s₂ : Session) (e₁ e₂ : Event) (hs : s₁.state = s₂.state)
    (hk : e₁.kind = e₂.kind) (hp : e₁.payload = e₂.payload) :
    (stepSession s₁ e₁).state = (stepSession s₂ e₂).state := by
  obtain ⟨u₁, st₁, p₁, c₁, q₁, ca₁, la₁⟩ := s₁
  obtain ⟨u₂, st₂, p₂, c₂, q₂, ca₂, la₂⟩ := s₂
  obtain ⟨v₁, k₁, pl₁, r₁⟩ := e₁
  obtain ⟨v₂, k₂, pl₂, r₂⟩ := e₂
  simp only [] at hs hk hp
  subst hs; subst hk; subst hp
  cases k₁ <;> simp only [stepSession, stepSessionE] <;> split_ifs <;> rfl

/-- C6: after every processed event sequence the session state is one of the eight
enumerated states of config.py, and the next state of a transition depends only on the
current state together with the event's kind and payload. -/
theorem state_enum_confirmed :
    (∀ (uid : String) (t : Nat) (es : List Event),
      (runEvents (freshSession uid t) es).state ∈
        [START, PLATFORM_SELECTION, PRODUCT_SEARCH, CATEGORY_SELECTION,
         DEAL_TYPE_SELECTION, PRICE_ALERT_SETUP, FEEDBACK, ADMIN_PANEL]) ∧
    (∀ (s₁ s₂ : Session) (e₁ e₂ : Event), s₁.state = s₂.state → e₁.kind = e₂.kind →
      e₁.payload = e₂.payload → (stepSession s₁ e₁).state = (stepSession s₂ e₂).state) := by
  constructor
  · intro uid t es
    have h : (runEvents (freshSession uid t) es).state < 8 :=
      runState_lt es (freshSession uid t) (show START < 8 by decide)
    generalize (runEvents (freshSession uid t) es).state = n at h ⊢
    simp only [START, PLATFORM_SELECTION, PRODUCT_SEARCH, CATEGORY_SELECTION,
      DEAL_TYPE_SELECTION, PRICE_ALERT_SETUP, FEEDBACK, ADMIN_PANEL, List.mem_cons,
      List.mem_singleton, List.not_mem_nil, or_false]
    omega
  · exact fun s₁ s₂ e₁ e₂ => stepState_dep s₁ s₂ e₁ e₂

/-- C6 witness: the state invariant after a processed event, and the dependence of the
next state on state, kind and payload alone, at concrete inputs. -/
theorem state_enum_witness :
    ((runEvents (freshSession "u" 0)
        [{ user_id := "u", kind := .command, payload := "start", received_at := 1 }]).state ∈
      [START, PLATFORM_SELECTION, PRODUCT_SEARCH, CATEGORY_SELECTION,
       DEAL_TYPE_SELECTION, PRICE_ALERT_SETUP, FEEDBACK, ADMIN_PANEL]) ∧
    (stepSession
        { user_id := "a", state := PRODUCT_SEARCH, selected_platform := some "amazon",
          selected_category := none, search_query := none, created_at := 0,
          last_active_at := 0 }
        { user_id := "a", kind := .text, payload := "shoes", received_at := 4 }).state
      = (stepSession
          { user_id := "b", state := PRODUCT_SEARCH, selected_platform := none,
            selected_category := some "fashion", search_query := some "old",
            created_at := 2, last_active_at := 3 }
          { user_id := "b", kind := .text, payload := "shoes", received_at := 9 }).state :=
  ⟨state_enum_confirmed.1 "u" 0 _, state_enum_confirmed.2 _ _ _ _ rfl rfl rfl⟩

/-- C7: an empty bot credential halts startup at configuration validation, before the
process begins serving; and handling an event never stops the serving loop — on the
error branch (malformed payload, unknown transition) just as on the success branch the
process keeps serving. -/
theorem startup_halt_confirmed (c : Config) (s : ServerState) (raw : RawPayload)
    (h : c.token = "") :
    startup c = .haltedAtValidation .missingToken ∧
    (serverHandle s raw).serving = s.serving := by
  constructor
  · simp [startup, validate_config, h]
  · rcases hpe : processUpdateE s.proc raw with ⟨st, err⟩
    cases err <;> simp [serverHandle, hpe]

/-- C7 witness: the statement at an empty-token configuration and a concrete loop state
fed a malformed payload. -/
theorem startup_halt_witness :
    startup { token := "", webhook_url := "" } = .haltedAtValidation .missingToken ∧
    (serverHandle { proc := initProc, serving := true } sampleNoUser).serving = true :=
  ⟨(startup_halt_confirmed { token := "", webhook_url := "" }
      { proc := initProc, serving := true } sampleNoUser rfl).1,
   (startup_halt_confirmed { token := "", webhook_url := "" }
      { proc := initProc, serving := true } sampleNoUser rfl).2⟩

theorem total_key_head (t : String) : ("total_" ++ t ++ "s").data.head? = some 't' := by
  rw [String.data_append, String.data_append]
  rfl

theorem total_key_ne_start_time (t : String) : ("total_" ++ t ++ "s") ≠ "start_time" := by
  intro h
  have h1 := total_key_head t
  rw [h] at h1
  exact absurd h1 (by decide)

theorem total_key_ne_images_sent (t : String) : ("total_" ++ t ++ "s") ≠ "images_sent" := by
  intro h
  have h1 := total_key_head t
  rw [h] at h1
  exact absurd h1 (by decide)

theorem total_key_iff (t : String) :
    ("total_" ++ t ++ "s" = "total_searches") ↔ t = "searche" := by
  constructor
  · intro h
    have hd : ("total_" ++ t ++ "s").data = ("total_searches" : String).data := by rw [h]
    rw [String.data_append, String.data_append] at hd
    have e1 : ("total_" : String).data = ['t', 'o', 't', 'a', 'l', '_'] := rfl
    have e2 : ("s" : String).data = ['s'] := rfl
    have e3 : ("total_searches" : String).data
        = ['t', 'o', 't', 'a', 'l', '_', 's', 'e', 'a', 'r', 'c', 'h', 'e', 's'] := rfl
    rw [e1, e2, e3] at hd
    have hd2 : t.data ++ ['s'] = ['s', 'e', 'a', 'r', 'c', 'h', 'e', 's'] := by
      simpa using hd
    have hd3 : t.data ++ ['s'] = ['s', 'e', 'a', 'r', 'c', 'h', 'e'] ++ ['s'] := hd2
    have hd4 : t.data = ['s', 'e', 'a', 'r', 'c', 'h', 'e'] := List.append_cancel_right hd3
    apply String.ext
    rw [hd4]
  · intro h
    subst h
    rfl

/-- C9 (amended): every successful increment call answers success and refreshes
last_activity; the reported value is 0 for every stat_type other than "searche" — in
particular for "search" and "image" themselves, whose counters do increment while the
response looks up the nonexistent keys "total_searchs" and "total_images" — whereas
stat_type "searche" reports the live total_searches counter; and for every stat_type
outside the pair search/image no counter changes. -/
theorem increment_value_amended (t : String) (st : BotStats) (nowIso : String) :
    (increment_stat t st nowIso).2.1 = 200 ∧
    jlookup "status" (increment_stat t st nowIso).2.2 = some (.s "success") ∧
    (increment_stat t st nowIso).1.last_activity = some nowIso ∧
    (t ≠ "searche" → jlookup "value" (increment_stat t st nowIso).2.2 = some (.n 0)) ∧
    (t = "image" → (increment_stat t st nowIso).1.images_sent = st.images_sent + 1) ∧
    (t ≠ "search" → t ≠ "image" →
      (increment_stat t st nowIso).1.total_searches = st.total_searches ∧
      (increment_stat t st nowIso).1.images_sent = st.images_sent ∧
      (increment_stat t st nowIso).1.active_users = st.active_users) := by
  refine ⟨?_, ?_, ?_, ?_, ?_, ?_⟩
  · rfl
  · rfl
  · simp [increment_stat]
  · intro ht
    have hkey1 := total_key_ne_start_time t
    have hkey2 := total_key_ne_images_sent t
    have hkey3 : ("total_" ++ t ++ "s") ≠ "total_searches" :=
      fun hh => ht ((total_key_iff t).1 hh)
    simp [increment_stat, jlookup, bot_stats_get_num, hkey1, hkey2, hkey3]
  · intro ht
    subst ht
    simp [increment_stat]
  · intro h1 h2
    simp [increment_stat, h1, h2]

/-- C9, counterexample: after one successful "search" increment, calling the increment
endpoint with stat_type "searche" — which differs from "search" — reports value 1, not
0: the concatenated lookup key "total_" ++ "searche" ++ "s" is exactly the live counter
key "total_searches". -/
theorem increment_value_cex :
    "searche" ≠ "search" ∧
    jlookup "value"
      (increment_stat "searche" (increment_stat "search" (initStats 0) "t1").1 "t2").2.2
      = some (.n 1) := by
  exact ⟨by decide, rfl⟩

/-- C9 witness: the amended statement instantiated at stat_type "image" (counter
incremented, value still 0) and at stat_type "other" (no counter change). -/
theorem increment_value_witness :
    jlookup "value" (increment_stat "image" (initStats 0) "t").2.2 = some (.n 0) ∧
    (increment_stat "image" (initStats 0) "t").1.images_sent
      = (initStats 0).images_sent + 1 ∧
    (increment_stat "other" (initStats 0) "t").1.total_searches
      = (initStats 0).total_searches := by
  refine ⟨(increment_value_amended "image" (initStats 0) "t").2.2.2.1 (by decide),
          (increment_value_amended "image" (initStats 0) "t").2.2.2.2.1 rfl,
          ((increment_value_amended "other" (initStats 0) "t").2.2.2.2.2 (by decide)
            (by decide)).1⟩
